import Mathlib

/-!
Verification of the descriptor filtering pipeline and callback lifecycle of
the `plum_ecomax` Home Assistant integration.

The embedding follows `custom_components/plum_ecomax/number.py` and
`custom_components/plum_ecomax/entity.py`.  The base descriptor classes
(`EcomaxEntityDescription`, `SubdeviceEntityDescription`), the `ALL`
constant from `const.py`, and the `EcomaxConnection` object live in files of
the repository that are not part of the provided sources; those parts are
modelled from the specification, and each such definition says so in its
doc comment.  The device notification registry, the `on_change` filter and
the `set_nowait` command sink belong to the external `pyplumio` library and
are modelled from the fixed contracts the specification states for them.
-/

namespace PlumEcomax

/-- Product types of the pyplumio `ProductType` enumeration that the number
platform mentions (`ECOMAX_P`, `ECOMAX_I`). -/
inductive ProductType where
  | ecomaxP
  | ecomaxI
deriving DecidableEq, Repr

/-- Modelled from the spec: the `product_types` field of a descriptor is
either the universal "all" marker (the `ALL` constant from the missing
`const.py`) or a finite set of product types.  Python represents the set as
`set[ProductType]`; a list models it here, membership being all the filter
uses. -/
inductive ProductTypes where
  | all
  | ofSet (s : List ProductType)
deriving DecidableEq, Repr

/-- Modelled from the spec: the `indexes` field of a sub-device descriptor is
either the universal "all" marker or a finite set of 1-based indexes. -/
inductive Indexes where
  | all
  | ofSet (s : List Nat)
deriving DecidableEq, Repr

/-- Python `description.product_types == ALL` for the sum-type model. -/
def ProductTypes.isAll : ProductTypes → Bool
  | .all => true
  | .ofSet _ => false

/-- Python `product_type in description.product_types`.  The `.all` case is
unreachable in `get_by_product_type` (the `or` short-circuits on the equality
with `ALL` first); `false` is a safe value for it. -/
def ProductTypes.containsPT (product_type : ProductType) : ProductTypes → Bool
  | .all => false
  | .ofSet s => decide (product_type ∈ s)

/-- Python `description.indexes == ALL` for the sum-type model. -/
def Indexes.isAll : Indexes → Bool
  | .all => true
  | .ofSet _ => false

/-- Python `index in description.indexes`.  The `.all` case is unreachable in
`get_by_index` (short-circuit), `false` is a safe value for it. -/
def Indexes.containsIdx (index : Nat) : Indexes → Bool
  | .all => false
  | .ofSet s => decide (index ∈ s)

/-- Modelled from the spec: the interface of the base descriptor class
`EcomaxEntityDescription` (defined in the repository's `entity.py`, absent
from the provided sources): a unique key, an applicable product-type set (or
"all") and an optional owning module name.  The class plays the role of the
bound of the `DescriptorT` type variable in `number.py`. -/
class EntityDescriptorClass (α : Type) where
  key : α → String
  product_types : α → ProductTypes
  module : α → Option String

/-- Modelled from the spec: the interface of `SubdeviceEntityDescription`,
bound of `SubDescriptorT`: additionally an optional sub-device index set (or
"all"). -/
class SubdeviceDescriptorClass (α : Type) extends EntityDescriptorClass α where
  indexes : α → Indexes

/-- The concrete `EcomaxNumberEntityDescription` records of `number.py`.
Display-only metadata that no logic reads (`device_class`, `native_step`,
`native_unit_of_measurement`, `mode`) is omitted; `key`, `translation_key`
and the filtering fields are kept.  The `module` field never appears in the
`number.py` catalog entries; the spec describes it as an optional owning
module name, so an entry that declares none carries `none`. -/
structure EcomaxNumberEntityDescription where
  key : String
  translation_key : String
  product_types : ProductTypes
  module : Option String := none
deriving DecidableEq, Repr

instance : EntityDescriptorClass EcomaxNumberEntityDescription where
  key := EcomaxNumberEntityDescription.key
  product_types := EcomaxNumberEntityDescription.product_types
  module := EcomaxNumberEntityDescription.module

/-- The concrete `EcomaxMixerNumberEntityDescription` records of `number.py`:
a number descriptor together with a sub-device index set, defaulting to the
"all" marker (spec: optional sub-device index set, or "all"). -/
structure EcomaxMixerNumberEntityDescription extends EcomaxNumberEntityDescription where
  indexes : Indexes := Indexes.all
deriving DecidableEq, Repr

instance : EntityDescriptorClass EcomaxMixerNumberEntityDescription where
  key d := d.key
  product_types d := d.product_types
  module d := d.module

instance : SubdeviceDescriptorClass EcomaxMixerNumberEntityDescription where
  indexes := EcomaxMixerNumberEntityDescription.indexes

/-- Modelled from the spec (external pyplumio `ConnectedModules`): a snapshot
of attributes.  `attr m = none` means the attribute named `m` is absent;
`attr m = some none` means present with value `None`; `attr m = some (some v)`
means present and non-null. -/
structure ConnectedModules where
  attr : String → Option (Option String)

/-- Python `getattr(connected_modules, name, None)`: the attribute's value
when present, the `None` default when absent. -/
def ConnectedModules.getattrOrNone (cm : ConnectedModules) (name : String) : Option String :=
  match cm.attr name with
  | none => none
  | some v => v

/-- `get_by_product_type` of `number.py`: keep a description when its
product-type set is the `ALL` marker or contains the product type.  The
Python generator yields lazily; the list of yielded descriptors is the
observable content. -/
def get_by_product_type {α : Type} [EntityDescriptorClass α]
    (product_type : ProductType) (descriptions : List α) : List α :=
  descriptions.filter fun description =>
    (EntityDescriptorClass.product_types description).isAll
      || (EntityDescriptorClass.product_types description).containsPT product_type

/-- `get_by_modules` of `number.py`: keep a description when
`getattr(connected_modules, description.module, None) is not None`.  A
descriptor that declares no owning module is kept, following the spec's
module-filter contract (the descriptor base class holding the `module`
field is not among the provided sources). -/
def get_by_modules {α : Type} [EntityDescriptorClass α]
    (connected_modules : ConnectedModules) (descriptions : List α) : List α :=
  descriptions.filter fun description =>
    match EntityDescriptorClass.module description with
    | none => true
    | some m => (connected_modules.getattrOrNone m).isSome

/-- `get_by_index` of `number.py`: increment the zero-based index, then keep
a description when its index set is the `ALL` marker or contains the
1-based index. -/
def get_by_index {α : Type} [SubdeviceDescriptorClass α]
    (index : Nat) (descriptions : List α) : List α :=
  let index := index + 1
  descriptions.filter fun description =>
    (SubdeviceDescriptorClass.indexes description).isAll
      || (SubdeviceDescriptorClass.indexes description).containsIdx index

/-- C1: a descriptor survives `get_by_product_type` exactly when it came from
the input and its `product_types` is the "all" marker or contains the
product type; a descriptor whose `product_types` is an empty non-"all" set
survives for no product type. -/
theorem get_by_product_type_mem_iff {α : Type} [EntityDescriptorClass α]
    (product_type : ProductType) (descriptions : List α) :
    (∀ d, d ∈ get_by_product_type product_type descriptions ↔
      d ∈ descriptions ∧
        (EntityDescriptorClass.product_types d = ProductTypes.all ∨
          ∃ s, EntityDescriptorClass.product_types d = ProductTypes.ofSet s ∧
            product_type ∈ s)) ∧
    (∀ d, EntityDescriptorClass.product_types d = ProductTypes.ofSet [] →
      d ∉ get_by_product_type product_type descriptions) := by
  constructor
  · intro d
    rw [get_by_product_type, List.mem_filter]
    refine and_congr_right fun _ => ?_
    cases h : EntityDescriptorClass.product_types d with
    | all => simp [ProductTypes.isAll]
    | ofSet s => simp [ProductTypes.isAll, ProductTypes.containsPT]
  · intro d h hmem
    rw [get_by_product_type, List.mem_filter, h] at hmem
    simp [ProductTypes.isAll, ProductTypes.containsPT] at hmem

/-- C1 witness: with the empty-set descriptor in a one-element catalog, the
filter keeps nothing; with an "all" descriptor it keeps the descriptor. -/
theorem get_by_product_type_mem_iff_witness :
    ({ key := "k", translation_key := "k",
       product_types := ProductTypes.ofSet [] } : EcomaxNumberEntityDescription) ∉
      get_by_product_type ProductType.ecomaxP
        [{ key := "k", translation_key := "k",
           product_types := ProductTypes.ofSet [] }] :=
  (get_by_product_type_mem_iff ProductType.ecomaxP _).2 _ rfl

/-- C2: a descriptor survives `get_by_modules` exactly when it came from the
input and it declares no owning module, or the attribute of the snapshot
named by its module is present and non-null; mere absence of the attribute
excludes the descriptor. -/
theorem get_by_modules_mem_iff {α : Type} [EntityDescriptorClass α]
    (connected_modules : ConnectedModules) (descriptions : List α) :
    (∀ d, d ∈ get_by_modules connected_modules descriptions ↔
      d ∈ descriptions ∧
        (EntityDescriptorClass.module d = none ∨
          ∃ m v, EntityDescriptorClass.module d = some m ∧
            connected_modules.attr m = some (some v))) ∧
    (∀ d m, EntityDescriptorClass.module d = some m →
      connected_modules.attr m = none →
      d ∉ get_by_modules connected_modules descriptions) := by
  have key : ∀ d : α,
      ((match EntityDescriptorClass.module d with
        | none => true
        | some m => (connected_modules.getattrOrNone m).isSome) = true) ↔
      (EntityDescriptorClass.module d = none ∨
        ∃ m v, EntityDescriptorClass.module d = some m ∧
          connected_modules.attr m = some (some v)) := by
    intro d
    cases h : EntityDescriptorClass.module d with
    | none => simp
    | some m =>
      simp only [h, Option.some.injEq, reduceCtorEq, false_or]
      cases ha : connected_modules.attr m with
      | none => simp [ConnectedModules.getattrOrNone, ha]
      | some v =>
        cases v with
        | none => simp [ConnectedModules.getattrOrNone, ha]
        | some w =>
          simp only [ConnectedModules.getattrOrNone, ha, Option.isSome_some, true_iff]
          exact ⟨m, w, rfl, ha⟩
  constructor
  · intro d
    rw [get_by_modules, List.mem_filter]
    exact and_congr_right fun _ => key d
  · intro d m hm ha hmem
    rw [get_by_modules, List.mem_filter, key d] at hmem
    rcases hmem.2 with h | ⟨m', v, hm', hv⟩
    · rw [hm] at h
      exact Option.noConfusion h
    · rw [hm, Option.some.injEq] at hm'
      subst hm'
      rw [ha] at hv
      exact Option.noConfusion hv

/-- C2 witness: a descriptor owned by module "module_b" is excluded when the
snapshot lacks that attribute, on a concrete one-element catalog. -/
theorem get_by_modules_mem_iff_witness :
    ({ key := "k", translation_key := "k", product_types := ProductTypes.all,
       module := some "module_b" } : EcomaxNumberEntityDescription) ∉
      get_by_modules ⟨fun _ => none⟩
        [{ key := "k", translation_key := "k", product_types := ProductTypes.all,
           module := some "module_b" }] :=
  (get_by_modules_mem_iff ⟨fun _ => none⟩ _).2 _ "module_b" rfl rfl

/-- C3: a sub-device descriptor survives `get_by_index` for zero-based index
`i` exactly when it came from the input and its `indexes` is the "all"
marker or contains the 1-based index `i + 1`. -/
theorem get_by_index_mem_iff {α : Type} [SubdeviceDescriptorClass α]
    (index : Nat) (descriptions : List α) :
    ∀ d, d ∈ get_by_index index descriptions ↔
      d ∈ descriptions ∧
        (SubdeviceDescriptorClass.indexes d = Indexes.all ∨
          ∃ s, SubdeviceDescriptorClass.indexes d = Indexes.ofSet s ∧
            index + 1 ∈ s) := by
  intro d
  rw [get_by_index, List.mem_filter]
  refine and_congr_right fun _ => ?_
  cases h : SubdeviceDescriptorClass.indexes d with
  | all => simp [Indexes.isAll]
  | ofSet s => simp [Indexes.isAll, Indexes.containsIdx]

/-- C9: each filter stage returns a subsequence of its input: surviving
descriptors keep their original relative order and no descriptor outside
the input is produced.  (The embedding of each stage is a pure function on
lists, matching the source's side-effect-free generators; immutability of
the catalog is intrinsic.) -/
theorem filter_stages_sublist {α β : Type}
    [EntityDescriptorClass α] [SubdeviceDescriptorClass β]
    (product_type : ProductType) (connected_modules : ConnectedModules)
    (index : Nat) (descriptions : List α) (sub_descriptions : List β) :
    (get_by_product_type product_type descriptions).Sublist descriptions ∧
    (get_by_modules connected_modules descriptions).Sublist descriptions ∧
    (get_by_index index sub_descriptions).Sublist sub_descriptions :=
  ⟨List.filter_sublist _, List.filter_sublist _, List.filter_sublist _⟩

/-- The static `NUMBER_TYPES` catalog of `number.py`, in source order.  Every
entry declares `product_types = {ProductType.ECOMAX_P}` and no owning
module. -/
def NUMBER_TYPES : List EcomaxNumberEntityDescription :=
  [ { key := "heating_target_temp", translation_key := "target_heating_temp",
      product_types := ProductTypes.ofSet [ProductType.ecomaxP] },
    { key := "min_heating_target_temp", translation_key := "min_heating_temp",
      product_types := ProductTypes.ofSet [ProductType.ecomaxP] },
    { key := "max_heating_target_temp", translation_key := "max_heating_temp",
      product_types := ProductTypes.ofSet [ProductType.ecomaxP] },
    { key := "grate_heating_temp", translation_key := "grate_mode_temp",
      product_types := ProductTypes.ofSet [ProductType.ecomaxP] },
    { key := "min_fuzzy_logic_power", translation_key := "fuzzy_logic_min_power",
      product_types := ProductTypes.ofSet [ProductType.ecomaxP] },
    { key := "max_fuzzy_logic_power", translation_key := "fuzzy_logic_max_power",
      product_types := ProductTypes.ofSet [ProductType.ecomaxP] },
    { key := "fuel_calorific_value", translation_key := "fuel_calorific_value",
      product_types := ProductTypes.ofSet [ProductType.ecomaxP] },
    { key := "heating_hysteresis", translation_key := "heating_hysteresis",
      product_types := ProductTypes.ofSet [ProductType.ecomaxP] },
    { key := "h1_hysteresis", translation_key := "h1_hysteresis",
      product_types := ProductTypes.ofSet [ProductType.ecomaxP] },
    { key := "h2_hysteresis", translation_key := "h2_hysteresis",
      product_types := ProductTypes.ofSet [ProductType.ecomaxP] },
    { key := "heating_pump_enable_temp", translation_key := "heating_pump_enable_temp",
      product_types := ProductTypes.ofSet [ProductType.ecomaxP] },
    { key := "water_heater_hysteresis", translation_key := "water_heater_hysteresis",
      product_types := ProductTypes.ofSet [ProductType.ecomaxP] } ]

/-- The static `MIXER_NUMBER_TYPES` catalog of `number.py`, in source order.
Entries without an explicit `indexes` field use the "all" default. -/
def MIXER_NUMBER_TYPES : List EcomaxMixerNumberEntityDescription :=
  [ { key := "mixer_target_temp", translation_key := "target_mixer_temp",
      product_types := ProductTypes.ofSet [ProductType.ecomaxP] },
    { key := "min_target_temp", translation_key := "min_mixer_temp",
      product_types := ProductTypes.ofSet [ProductType.ecomaxP] },
    { key := "max_target_temp", translation_key := "max_mixer_temp",
      product_types := ProductTypes.ofSet [ProductType.ecomaxP] },
    { key := "circuit_target_temp", translation_key := "target_circuit_temp",
      product_types := ProductTypes.ofSet [ProductType.ecomaxI] },
    { key := "min_target_temp", translation_key := "min_circuit_temp",
      product_types := ProductTypes.ofSet [ProductType.ecomaxI],
      indexes := Indexes.ofSet [2, 3] },
    { key := "max_target_temp", translation_key := "max_circuit_temp",
      product_types := ProductTypes.ofSet [ProductType.ecomaxI],
      indexes := Indexes.ofSet [2, 3] },
    { key := "day_target_temp", translation_key := "day_target_circuit_temp",
      product_types := ProductTypes.ofSet [ProductType.ecomaxI],
      indexes := Indexes.ofSet [2, 3] },
    { key := "night_target_temp", translation_key := "night_target_circuit_temp",
      product_types := ProductTypes.ofSet [ProductType.ecomaxI],
      indexes := Indexes.ofSet [2, 3] } ]

/-- Modelled from the spec: the slice of the `EcomaxConnection` object (the
repository's `connection.py` is absent from the provided sources) that the
number platform reads: the device's product type, the connected-modules
snapshot (`connection.device.modules`), the known sub-device indexes
(iterating `connection.device.mixers` yields its keys), the `has_mixers`
capability flag, and the result of the async capability check
`connection.async_setup_mixers()`. -/
structure EcomaxConnection where
  product_type : ProductType
  modules : ConnectedModules
  mixers : List Nat
  has_mixers : Bool
  setup_mixers_ok : Bool

/-- An `EcomaxNumber` entity as built by the factory: the surviving
descriptor bound to the shared connection handle (the handle, common to all
entities of a setup run, stays implicit). -/
structure EcomaxNumber where
  description : EcomaxNumberEntityDescription
deriving DecidableEq, Repr

/-- A `MixerNumber` entity: a mixer descriptor together with the zero-based
sub-device index passed to its constructor. -/
structure MixerNumber where
  description : EcomaxMixerNumberEntityDescription
  index : Nat
deriving DecidableEq, Repr

/-- `async_setup_ecomax_numbers`: one `EcomaxNumber` per descriptor
surviving `get_by_modules` applied after `get_by_product_type` over
`NUMBER_TYPES`. -/
def async_setup_ecomax_numbers (connection : EcomaxConnection) : List EcomaxNumber :=
  (get_by_modules connection.modules
      (get_by_product_type connection.product_type NUMBER_TYPES)).map
    fun description => { description := description }

/-- `async_setup_mixer_numbers`: for each index of `connection.device.mixers`
(outer loop), one `MixerNumber` per descriptor surviving the index filter
for that index applied to the module- and product-type-filtered
`MIXER_NUMBER_TYPES` (inner loop). -/
def async_setup_mixer_numbers (connection : EcomaxConnection) : List MixerNumber :=
  connection.mixers.flatMap fun index =>
    (get_by_index index
        (get_by_modules connection.modules
          (get_by_product_type connection.product_type MIXER_NUMBER_TYPES))).map
      fun description => { description := description, index := index }

/-- An entity handed to `async_add_entities`: a top-level number or a mixer
number. -/
inductive NumberPlatformEntity where
  | top (e : EcomaxNumber)
  | mixer (e : MixerNumber)
deriving DecidableEq, Repr

/-- `async_setup_entry` of `number.py`: build the top-level numbers, append
the mixer numbers only when `connection.has_mixers` holds and the awaited
`connection.async_setup_mixers()` capability check succeeds, hand the list
to `async_add_entities`, and return `True`.  The result pairs the returned
boolean with the entity list that was added. -/
def async_setup_entry (connection : EcomaxConnection) : Bool × List NumberPlatformEntity :=
  let entities := (async_setup_ecomax_numbers connection).map NumberPlatformEntity.top
  let entities :=
    if connection.has_mixers && connection.setup_mixers_ok then
      entities ++ (async_setup_mixer_numbers connection).map NumberPlatformEntity.mixer
    else entities
  (true, entities)

/-- C4: the factory yields, for top-level entities, exactly the descriptors
surviving the product-type-then-module pipeline over `NUMBER_TYPES`, in
catalog order; for mixer entities it yields one entity per pair of a known
sub-device index with a descriptor surviving the product-type, module and
per-index filters for that index, the index being stored in the entity, and
the total count is the sum over the indexes of the per-index survivor
counts. -/
theorem setup_factories_characterisation (connection : EcomaxConnection) :
    ((async_setup_ecomax_numbers connection).map EcomaxNumber.description =
      get_by_modules connection.modules
        (get_by_product_type connection.product_type NUMBER_TYPES)) ∧
    (∀ d i, (⟨d, i⟩ : MixerNumber) ∈ async_setup_mixer_numbers connection ↔
      i ∈ connection.mixers ∧
        d ∈ get_by_index i
          (get_by_modules connection.modules
            (get_by_product_type connection.product_type MIXER_NUMBER_TYPES))) ∧
    ((async_setup_mixer_numbers connection).length =
      (connection.mixers.map fun i =>
        (get_by_index i
          (get_by_modules connection.modules
            (get_by_product_type connection.product_type MIXER_NUMBER_TYPES))).length).sum) := by
  refine ⟨?_, ?_, ?_⟩
  · rw [async_setup_ecomax_numbers, List.map_map]
    exact List.map_id _
  · intro d i
    rw [async_setup_mixer_numbers, List.mem_flatMap]
    constructor
    · rintro ⟨j, hj, hmem⟩
      rw [List.mem_map] at hmem
      obtain ⟨d', hd', heq⟩ := hmem
      cases heq
      exact ⟨hj, hd'⟩
    · rintro ⟨hi, hd⟩
      exact ⟨i, hi, List.mem_map.mpr ⟨d, hd, rfl⟩⟩
  · rw [async_setup_mixer_numbers, List.length_flatMap]
    simp only [Function.comp_def, List.length_map]

/-- C8: `async_setup_entry` always reports success; with zero sub-devices
the mixer entity list is empty rather than an error; and when the async
capability check fails, the platform registers only the top-level
entities. -/
theorem setup_entry_degrades_gracefully (connection : EcomaxConnection) :
    ((async_setup_entry connection).1 = true) ∧
    (connection.mixers = [] → async_setup_mixer_numbers connection = []) ∧
    (connection.setup_mixers_ok = false →
      (async_setup_entry connection).2 =
        (async_setup_ecomax_numbers connection).map NumberPlatformEntity.top) := by
  refine ⟨rfl, ?_, ?_⟩
  · intro h
    rw [async_setup_mixer_numbers, h]
    rfl
  · intro h
    rw [async_setup_entry]
    simp [h]

/-- C8 witness: a concrete ECOMAX_P connection with no mixers and a failed
capability check still sets up successfully with only top-level numbers. -/
theorem setup_entry_degrades_gracefully_witness :
    ((async_setup_entry ⟨ProductType.ecomaxP, ⟨fun _ => none⟩, [], false, false⟩).1 = true) ∧
    (async_setup_mixer_numbers ⟨ProductType.ecomaxP, ⟨fun _ => none⟩, [], false, false⟩ = []) ∧
    ((async_setup_entry ⟨ProductType.ecomaxP, ⟨fun _ => none⟩, [], false, false⟩).2 =
      (async_setup_ecomax_numbers
        ⟨ProductType.ecomaxP, ⟨fun _ => none⟩, [], false, false⟩).map
        NumberPlatformEntity.top) :=
  ⟨(setup_entry_degrades_gracefully _).1,
    (setup_entry_degrades_gracefully _).2.1 rfl,
    (setup_entry_degrades_gracefully _).2.2 rfl⟩

/-- Runtime identity of an entity instance: its descriptor key together with
an object identity separating distinct entity objects sharing a device. -/
structure EntityRuntimeId where
  key : String
  object_id : Nat
deriving DecidableEq, Repr

/-- Modelled from the spec (external pyplumio `on_change` wrapper object
around the entity's bound `async_update` method): for registry bookkeeping
the wrapper compares equal exactly to a wrapper of the same entity's update
method, so its value is determined by the owning entity. -/
structure ValueCallback where
  owner : EntityRuntimeId
deriving DecidableEq, Repr

/-- The device's per-key callback subscriptions, in registration order. -/
abbrev NotificationRegistry : Type := List (String × ValueCallback)

/-- Modelled from the spec (external device notification registry):
`device.register_callback(name, callback)` subscribes the callback under the
key; the new subscription joins the registry. -/
def register_callback (registry : NotificationRegistry) (name : String)
    (callback : ValueCallback) : NotificationRegistry :=
  registry ++ [(name, callback)]

/-- Modelled from the spec (external device notification registry):
`device.remove_callback(name, callback)` drops one matching subscription
when present and is a no-op otherwise. -/
def remove_callback : NotificationRegistry → String → ValueCallback → NotificationRegistry
  | [], _, _ => []
  | p :: rest, name, callback =>
    if p = (name, callback) then rest
    else p :: remove_callback rest name callback

/-- `EcomaxEntity.callbacks` of `entity.py`: a single entry mapping the
descriptor key to the change-filtered update callback
`on_change(self.async_update)`. -/
def callbacks (e : EntityRuntimeId) : List (String × ValueCallback) :=
  [(e.key, ValueCallback.mk e)]

/-- `EcomaxEntity.async_added_to_hass`: register every `(name, callback)`
entry of `callbacks` with the device. -/
def async_added_to_hass (registry : NotificationRegistry)
    (e : EntityRuntimeId) : NotificationRegistry :=
  (callbacks e).foldl (fun r nc => register_callback r nc.1 nc.2) registry

/-- `EcomaxEntity.async_removed_from_hass`: remove every `(name, callback)`
entry of `callbacks` from the device. -/
def async_removed_from_hass (registry : NotificationRegistry)
    (e : EntityRuntimeId) : NotificationRegistry :=
  (callbacks e).foldl (fun r nc => remove_callback r nc.1 nc.2) registry

/-- How many subscriptions of the registry are the given entity's
`(key, callback)` pair. -/
def registrations (registry : NotificationRegistry) (e : EntityRuntimeId) : Nat :=
  (registry.filter fun p => decide (p = (e.key, ValueCallback.mk e))).length

theorem remove_callback_of_not_mem (registry : NotificationRegistry)
    (name : String) (callback : ValueCallback)
    (h : (name, callback) ∉ registry) :
    remove_callback registry name callback = registry := by
  induction registry with
  | nil => rfl
  | cons p rest ih =>
    have hne : p ≠ (name, callback) := by
      rintro rfl
      exact h (List.mem_cons_self _ _)
    simp only [remove_callback, if_neg hne]
    rw [ih fun hm => h (List.mem_cons_of_mem _ hm)]

theorem remove_callback_append (registry : NotificationRegistry)
    (name : String) (callback : ValueCallback)
    (h : (name, callback) ∉ registry) :
    remove_callback (registry ++ [(name, callback)]) name callback = registry := by
  induction registry with
  | nil => simp [remove_callback]
  | cons p rest ih =>
    have hne : p ≠ (name, callback) := by
      rintro rfl
      exact h (List.mem_cons_self _ _)
    simp only [List.cons_append, remove_callback, if_neg hne, List.append_eq]
    rw [ih fun hm => h (List.mem_cons_of_mem _ hm)]

theorem registrations_eq_zero_iff (registry : NotificationRegistry)
    (e : EntityRuntimeId) :
    registrations registry e = 0 ↔ (e.key, ValueCallback.mk e) ∉ registry := by
  rw [registrations, List.length_eq_zero, List.filter_eq_nil_iff]
  constructor
  · intro h hmem
    exact h _ hmem (by simp)
  · intro h a ha hpa
    rw [decide_eq_true_eq] at hpa
    exact h (hpa ▸ ha)

/-- C5: attaching an entity with no prior registration adds exactly its one
`(descriptor key, change-filtered callback)` pair to the registry, after
which exactly one such pair is registered; detaching removes that same pair
from that same key, restoring the registry, so nothing remains registered
after detach. -/
theorem attach_detach_lifecycle (registry : NotificationRegistry)
    (e : EntityRuntimeId) (h : registrations registry e = 0) :
    async_added_to_hass registry e = registry ++ [(e.key, ValueCallback.mk e)] ∧
    registrations (async_added_to_hass registry e) e = 1 ∧
    async_removed_from_hass (async_added_to_hass registry e) e = registry := by
  have hattach : async_added_to_hass registry e =
      registry ++ [(e.key, ValueCallback.mk e)] := rfl
  refine ⟨hattach, ?_, ?_⟩
  · have h0 : registry.filter
        (fun p => decide (p = (e.key, ValueCallback.mk e))) = [] := by
      rw [registrations] at h
      exact List.length_eq_zero.mp h
    rw [hattach, registrations, List.filter_append, h0]
    simp
  · rw [hattach]
    show remove_callback (registry ++ [(e.key, ValueCallback.mk e)])
      e.key (ValueCallback.mk e) = registry
    exact remove_callback_append registry e.key (ValueCallback.mk e)
      ((registrations_eq_zero_iff registry e).mp h)

/-- C5 witness: a concrete entity attached to an empty registry registers
exactly its one pair, and detaching restores the empty registry. -/
theorem attach_detach_lifecycle_witness :
    async_added_to_hass ([] : NotificationRegistry) ⟨"heating_target_temp", 0⟩ =
      ([] : NotificationRegistry) ++
        [("heating_target_temp", ValueCallback.mk ⟨"heating_target_temp", 0⟩)] ∧
    registrations
      (async_added_to_hass ([] : NotificationRegistry) ⟨"heating_target_temp", 0⟩)
      ⟨"heating_target_temp", 0⟩ = 1 ∧
    async_removed_from_hass
      (async_added_to_hass ([] : NotificationRegistry) ⟨"heating_target_temp", 0⟩)
      ⟨"heating_target_temp", 0⟩ = ([] : NotificationRegistry) :=
  attach_detach_lifecycle [] ⟨"heating_target_temp", 0⟩ rfl

/-- C7: detaching an entity that has no matching registration is a total
no-op: the registry is returned unchanged, with no removal (and the
embedding being a total function, no exception). -/
theorem detach_without_attach_noop (registry : NotificationRegistry)
    (e : EntityRuntimeId) (h : registrations registry e = 0) :
    async_removed_from_hass registry e = registry := by
  show remove_callback registry e.key (ValueCallback.mk e) = registry
  exact remove_callback_of_not_mem registry e.key (ValueCallback.mk e)
    ((registrations_eq_zero_iff registry e).mp h)

/-- C7 witness: detaching an unregistered entity from a registry holding an
unrelated subscription leaves the registry unchanged. -/
theorem detach_without_attach_noop_witness :
    async_removed_from_hass
      ([("water_heater_hysteresis", ValueCallback.mk ⟨"water_heater_hysteresis", 7⟩)] :
        NotificationRegistry)
      ⟨"heating_target_temp", 0⟩ =
    ([("water_heater_hysteresis", ValueCallback.mk ⟨"water_heater_hysteresis", 7⟩)] :
      NotificationRegistry) :=
  detach_without_attach_noop _ ⟨"heating_target_temp", 0⟩ (by decide)

/-- A pyplumio `Parameter` as `EcomaxNumber.async_update` reads it: current
value, minimum and maximum.  Numeric values are rationals in the embedding;
no arithmetic is performed on them, only assignment and comparison. -/
structure Parameter where
  value : ℚ
  min_value : ℚ
  max_value : ℚ
deriving DecidableEq, Repr

/-- The runtime state of one `EcomaxNumber` entity together with its
observable effects: the descriptor key, the mirrored `_attr_native_*`
fields, the count of `async_write_ha_state` calls, and the sequence of
`set_nowait` commands dispatched to the device (fire-and-forget: the
dispatch is recorded, no acknowledgement is modelled). -/
structure EcomaxNumberState where
  key : String
  native_value : Option ℚ
  native_min_value : Option ℚ
  native_max_value : Option ℚ
  ha_writes : Nat
  device_sets : List (String × ℚ)
deriving DecidableEq, Repr

/-- `EcomaxNumber.async_update`: mirror the parameter's value, minimum and
maximum into the entity's attributes and write the state to Home
Assistant. -/
def ecomax_number_async_update (s : EcomaxNumberState) (value : Parameter) :
    EcomaxNumberState :=
  { s with
    native_value := some value.value,
    native_min_value := some value.min_value,
    native_max_value := some value.max_value,
    ha_writes := s.ha_writes + 1 }

/-- `EcomaxNumber.async_set_native_value`: dispatch
`device.set_nowait(key, value)` without awaiting, mirror the new value
optimistically, and write the state to Home Assistant. -/
def async_set_native_value (s : EcomaxNumberState) (value : ℚ) :
    EcomaxNumberState :=
  { s with
    device_sets := s.device_sets ++ [(s.key, value)],
    native_value := some value,
    ha_writes := s.ha_writes + 1 }

/-- Modelled from the spec (external pyplumio `on_change` filter): the state
of the wrapper is the last value it has seen for its key. -/
structure OnChangeState where
  last : Option Parameter
deriving DecidableEq, Repr

/-- Modelled from the spec (external pyplumio `on_change` filter): deliver a
value through the change-suppression wrapper around
`EcomaxNumber.async_update`; the wrapped update runs only when the incoming
value differs from the last-seen value. -/
def on_change_deliver (fs : OnChangeState) (s : EcomaxNumberState)
    (value : Parameter) : OnChangeState × EcomaxNumberState :=
  if fs.last = some value then (fs, s)
  else (⟨some value⟩, ecomax_number_async_update s value)

/-- The parameter value 5 of the spec's duplicate-delivery scenario. -/
def param5 : Parameter := ⟨5, 0, 100⟩

/-- C6: a delivery equal to the last-seen value neither invokes the entity's
update nor writes state; a differing delivery runs the update and produces
exactly one state write; delivering 5 then 5 through a fresh wrapper yields
exactly one state write in total. -/
theorem callback_change_suppression (fs : OnChangeState)
    (s : EcomaxNumberState) (value : Parameter) :
    (fs.last = some value → on_change_deliver fs s value = (fs, s)) ∧
    (fs.last ≠ some value →
      (on_change_deliver fs s value).2 = ecomax_number_async_update s value ∧
      (on_change_deliver fs s value).2.ha_writes = s.ha_writes + 1) ∧
    ((on_change_deliver (on_change_deliver ⟨none⟩ s param5).1
        (on_change_deliver ⟨none⟩ s param5).2 param5).2.ha_writes =
      s.ha_writes + 1) := by
  refine ⟨?_, ?_, ?_⟩
  · intro h
    rw [on_change_deliver, if_pos h]
  · intro h
    rw [on_change_deliver, if_neg h]
    exact ⟨rfl, rfl⟩
  · have h1 : on_change_deliver ⟨none⟩ s param5 =
        (⟨some param5⟩, ecomax_number_async_update s param5) := by
      rw [on_change_deliver, if_neg]
      intro h
      exact Option.noConfusion h
    rw [h1, on_change_deliver, if_pos rfl]
    rfl

/-- C6 witness: with a concrete fresh entity state, a repeat of the
last-seen value is suppressed outright, and a first delivery writes state
once. -/
theorem callback_change_suppression_witness :
    (on_change_deliver ⟨some param5⟩
        ⟨"heating_target_temp", none, none, none, 0, []⟩ param5 =
      (⟨some param5⟩, ⟨"heating_target_temp", none, none, none, 0, []⟩)) ∧
    ((on_change_deliver ⟨none⟩
        ⟨"heating_target_temp", none, none, none, 0, []⟩ param5).2.ha_writes =
      (⟨"heating_target_temp", none, none, none, 0, []⟩ :
        EcomaxNumberState).ha_writes + 1) :=
  ⟨(callback_change_suppression ⟨some param5⟩
      ⟨"heating_target_temp", none, none, none, 0, []⟩ param5).1 rfl,
    ((callback_change_suppression ⟨none⟩
      ⟨"heating_target_temp", none, none, none, 0, []⟩ param5).2.1
        (fun h => Option.noConfusion h)).2⟩

/-- C10: `async_set_native_value` appends one `set_nowait` dispatch of the
new value under the descriptor key, mirrors the value optimistically, and
writes state once, while the mirrored minimum, the mirrored maximum and the
key stay unchanged. -/
theorem set_native_value_frame (s : EcomaxNumberState) (value : ℚ) :
    (async_set_native_value s value).device_sets =
      s.device_sets ++ [(s.key, value)] ∧
    (async_set_native_value s value).native_value = some value ∧
    (async_set_native_value s value).native_min_value = s.native_min_value ∧
    (async_set_native_value s value).native_max_value = s.native_max_value ∧
    (async_set_native_value s value).key = s.key ∧
    (async_set_native_value s value).ha_writes = s.ha_writes + 1 :=
  ⟨rfl, rfl, rfl, rfl, rfl, rfl⟩

end PlumEcomax
